import Mathlib

/-!
Verification development for the Legally Easy repository (legal chat flow).

The definitions below are a shallow embedding of:
  * `src/ai/flows/legal-chat-flow.ts` — the zod input/output schemas, the
    handlebars prompt template and the genkit flow `legalChatFlow`;
  * `src/app/page.tsx` — the presentation-layer chat submit handler
    `handleChatSubmit`, the failure continuation inside its transition, and
    `clearSelectedFile`.
The LLM provider is modelled as an oracle from rendered prompts to raw
JSON-like values; the flow validates that value against the declared output
schema exactly as the code does.
-/

/-! ### Generic string helpers (executable, used by the statements) -/

/-- `chListLeads p l` is true when `p` is a leading segment of `l`. -/
def chListLeads : List Char → List Char → Bool
  | [], _ => true
  | _ :: _, [] => false
  | a :: as, b :: bs => a == b && chListLeads as bs

/-- `chListOccurs n l` is true when `n` occurs contiguously inside `l`. -/
def chListOccurs (needle : List Char) : List Char → Bool
  | [] => needle.isEmpty
  | b :: bs => chListLeads needle (b :: bs) || chListOccurs needle bs

/-- `strLeads p s`: the string `p` is a leading segment of `s`. -/
def strLeads (p s : String) : Bool := chListLeads p.data s.data

/-- `strOccurs n h`: the string `n` occurs character-for-character inside `h`. -/
def strOccurs (needle hay : String) : Bool := chListOccurs needle.data hay.data

/-- A JavaScript-style whitespace class for `String.prototype.trim`. -/
def jsWhitespace (c : Char) : Bool :=
  c == ' ' || c == '\t' || c == '\n' || c == '\r' || c == '\x0b' || c == '\x0c' || c == '\xa0'

/-- Model of JavaScript `s.trim()`: strip leading and trailing whitespace. -/
def jsTrim (s : String) : String :=
  ⟨((s.data.dropWhile jsWhitespace).reverse.dropWhile jsWhitespace).reverse⟩

/-! ### JSON-like raw values (the untyped wire form the zod schemas parse) -/

/-- Untyped JSON-like value, the raw form a caller hands to the flow and the
raw structured output the provider returns. -/
inductive JsonValue where
  | str : String → JsonValue
  | num : Int → JsonValue
  | bool : Bool → JsonValue
  | null : JsonValue
  | obj : List (String × JsonValue) → JsonValue
  | arr : List JsonValue → JsonValue
deriving Repr

/-- First binding of key `k` in an object's field list (JS object keys are
unique, so first match is the value). -/
def getField (fs : List (String × JsonValue)) (k : String) : Option JsonValue :=
  match fs with
  | [] => none
  | (k2, v) :: rest => if k2 = k then some v else getField rest k

/-! ### The data model of `legal-chat-flow.ts` -/

/-- `LegalChatInputSchema`: `query` (string), `documentDataUri` (optional
string), `documentName` (optional string). -/
structure LegalChatInput where
  query : String
  documentDataUri : Option String := none
  documentName : Option String := none
deriving Repr, DecidableEq

/-- `LegalChatOutputSchema`: a single `response` string field. -/
structure LegalChatOutput where
  response : String
deriving Repr, DecidableEq

/-- zod `z.string().optional()`: absent is fine; a present value must be a
string (anything else, including `null`, is rejected). -/
def asOptString : Option JsonValue → Except String (Option String)
  | none => .ok none
  | some (.str s) => .ok (some s)
  | some _ => .error "expected string"

/-- Validation performed by `LegalChatInputSchema`: the object must carry a
string `query`; `documentDataUri` and `documentName` are optional strings.
No format check is applied to `documentDataUri` beyond being a string
(`.describe` in the source documents the expected data-URI shape but zod does
not validate it). -/
def parseLegalChatInput : JsonValue → Except String LegalChatInput
  | .obj fs =>
    match getField fs "query" with
    | some (.str q) =>
      match asOptString (getField fs "documentDataUri") with
      | .error e => .error e
      | .ok d =>
        match asOptString (getField fs "documentName") with
        | .error e => .error e
        | .ok n => .ok { query := q, documentDataUri := d, documentName := n }
    | some _ => .error "query: expected string"
    | none => .error "query: required"
  | _ => .error "expected object"

/-- Validation performed by `LegalChatOutputSchema`: the provider's structured
output must be an object with a string `response` field. `z.string()` accepts
any string, the empty string included. -/
def parseLegalChatOutput : JsonValue → Except String LegalChatOutput
  | .obj fs =>
    match getField fs "response" with
    | some (.str r) => .ok { response := r }
    | some _ => .error "response: expected string"
    | none => .error "response: required"
  | _ => .error "expected object"

/-! ### The prompt template (the backtick literal in `ai.definePrompt`),
reproduced character for character; handlebars braces are written with
hexadecimal escapes. -/

/-- Fixed off-topic refusal sentence (contract string of the spec). -/
def refusalSentence : String :=
  "This query does not appear to be related to legal matters. As LegallyEasy AI, I can only assist with legal questions."

/-- Fixed disclaimer sentence (contract string of the spec). -/
def disclaimerSentence : String :=
  "As LegallyEasy AI, I can provide information, but this is not legal advice. For specific legal issues, please consult a qualified legal professional."

/-- Template text before the document block (source lines 42-47). -/
def promptInstructions : String :=
  "You are LegallyEasy AI, a specialized legal information assistant. Your primary goal is to provide helpful and informative answers to legal questions.\n\nIf the user\x27s query is clearly not related to legal matters, your *entire response* must be *exactly* this: \"This query does not appear to be related to legal matters. As LegallyEasy AI, I can only assist with legal questions.\" After providing this specific sentence, you must stop and provide no further information or answer. Do not attempt to answer the non-legal query in any other way.\n\nIMPORTANT: If the query *is* legal, always begin your response by stating: \"As LegallyEasy AI, I can provide information, but this is not legal advice. For specific legal issues, please consult a qualified legal professional.\"\n\n"

/-- The opening tag of the conditional document block. -/
def ifOpenTag : String := "\x7b\x7b#if documentDataUri\x7d\x7d\n"

/-- Document block text before the document-name placeholder. -/
def docNamePre : String :=
  "The user has provided the following document named \x27"

/-- The document-name placeholder. -/
def docNameTag : String := "\x7b\x7bdocumentName\x7d\x7d"

/-- Document block text between the name placeholder and the media tag. -/
def docNamePost : String :=
  "\x27 for reference. Use its content to inform your answer to the user\x27s query if it\x27s relevant to the legal question.\nDocument Content:\n"

/-- The media placeholder that inlines the document bytes. -/
def mediaTag : String := "\x7b\x7bmedia url=documentDataUri\x7d\x7d"

/-- The closing tag of the conditional document block. -/
def ifCloseTag : String := "\n\x7b\x7b/if\x7d\x7d"

/-- Template text after the document block, up to the query placeholder
(source line 54). -/
def finalQuestion : String :=
  "\n\nPlease address the user\x27s legal question based on the information provided (if any document was attached) and your general legal knowledge: "

/-- The raw query placeholder (triple-stache). -/
def queryTag : String := "\x7b\x7b\x7bquery\x7d\x7d\x7d"

/-- The full prompt template passed to `ai.definePrompt`, assembled from the
verbatim source fragments in source order. -/
def promptTemplate : String :=
  promptInstructions ++ ifOpenTag ++ docNamePre ++ docNameTag ++ docNamePost ++
    mediaTag ++ ifCloseTag ++ finalQuestion ++ queryTag

/-! ### Rendering the template for a concrete input (handlebars semantics) -/

/-- Handlebars truthiness of an optional string: a missing value and the
empty string are falsy, every other string is truthy. -/
def hbTruthy : Option String → Bool
  | some s => !s.isEmpty
  | none => false

/-- Handlebars variable lookup: a missing value renders as the empty string. -/
def hbVar (v : Option String) : String := v.getD ""

/-- One part of a rendered prompt: plain text, or an inline media attachment
produced by the dotprompt media helper. -/
inductive PromptPart where
  | text : String → PromptPart
  | media : String → PromptPart
deriving Repr, DecidableEq

/-- Render the template against a parsed input: the conditional block
contributes its body (name, then the document as a media part) exactly when
`documentDataUri` is handlebars-truthy; the query is substituted raw. -/
def renderPrompt (inp : LegalChatInput) : List PromptPart :=
  if hbTruthy inp.documentDataUri then
    [ .text (promptInstructions ++ docNamePre ++ hbVar inp.documentName ++ docNamePost),
      .media (hbVar inp.documentDataUri),
      .text ("\n" ++ finalQuestion ++ inp.query) ]
  else
    [ .text (promptInstructions ++ finalQuestion ++ inp.query) ]

/-- True when the rendered prompt carries an inline media (document content)
part. -/
def hasMediaPart (ps : List PromptPart) : Bool :=
  ps.any fun p => match p with | .media _ => true | _ => false

/-! ### The flow -/

/-- Error taxonomy of the spec: input-schema rejection before the provider
call, or a provider/output-schema failure after it. -/
inductive FlowError where
  | invalidInput : String → FlowError
  | upstream : String → FlowError
deriving Repr, DecidableEq

deriving instance DecidableEq for Except

/-- Outcome of one flow invocation, together with how many outbound provider
calls were made. -/
structure FlowTrace where
  providerCalls : Nat
  result : Except FlowError LegalChatOutput
deriving Repr, DecidableEq

/-- Decidable test: a trace result is an input-validation failure. -/
def isInvalidInput : Except FlowError LegalChatOutput → Bool
  | .error (.invalidInput _) => true
  | _ => false

/-- `legalChatFlow`: validate the raw input against the input schema (genkit
validates `inputSchema` before the body runs); on success render the prompt,
make one provider call, and parse the provider's structured output with the
output schema — the body is `const {output} = await prompt(input); return
output!`, so a conforming output is returned unchanged and a nonconforming
one surfaces as an upstream failure. -/
def legalChatFlow (oracle : List PromptPart → JsonValue) (raw : JsonValue) : FlowTrace :=
  match parseLegalChatInput raw with
  | .error e => { providerCalls := 0, result := .error (.invalidInput e) }
  | .ok inp =>
    match parseLegalChatOutput (oracle (renderPrompt inp)) with
    | .error e => { providerCalls := 1, result := .error (.upstream e) }
    | .ok out => { providerCalls := 1, result := .ok out }

/-- The exported wrapper `legalChat(input) { return legalChatFlow(input) }`. -/
def legalChat (oracle : List PromptPart → JsonValue) (raw : JsonValue) : FlowTrace :=
  legalChatFlow oracle raw

/-- Helper for `specDataUriFormat`: the remainder (after a non-empty MIME
head) must contain `sep` followed by a non-empty payload. -/
def dataUriRestOk (sep : List Char) : List Char → Bool
  | [] => false
  | b :: bs =>
    if chListLeads sep (b :: bs) then
      !((b :: bs).drop sep.length).isEmpty
    else
      dataUriRestOk sep bs

/-- Helper for `specDataUriFormat`: scanning for the first occurrence of
`sep`, the part before it (the MIME type) and the part after it (the payload)
are both non-empty. -/
def dataUriSplitOk (sep : List Char) : List Char → Bool
  | [] => false
  | b :: bs =>
    if chListLeads sep (b :: bs) then
      false
    else
      dataUriRestOk sep bs

/-- Modelled from the spec: the inline document encoding
`data:<mimetype>;base64,<payload>` with a non-empty MIME type and a non-empty
payload (the format the spec requires `documentDataUri` to match; the source
only documents it in a `.describe` string and nowhere implements a checker,
so this definition follows the spec's words). -/
def specDataUriFormat (s : String) : Bool :=
  match s.data with
  | 'd' :: 'a' :: 't' :: 'a' :: ':' :: rest => dataUriSplitOk (";base64,").data rest
  | _ => false

/-! ### The presentation layer (`src/app/page.tsx`): chat state and the
submit handler -/

/-- The `role` of a `ChatMessage`. -/
inductive Role where
  | user : Role
  | assistant : Role
deriving Repr, DecidableEq

/-- A transcript entry; `crypto.randomUUID()` is modelled by a fresh counter
value carried in the page state. -/
structure ChatMessage where
  id : Nat
  role : Role
  content : String
deriving Repr, DecidableEq

/-- The chat-relevant React state of `LegallyEasyPage`: the transcript, the
text field, the error banner, the attached file (its name; `some` means a
`File` object is held) and the file's data URI. `nextId` models the fresh-id
supply behind `crypto.randomUUID()`. -/
structure PageState where
  chatMessages : List ChatMessage
  currentUserQuery : String
  chatError : Option String
  selectedFile : Option String
  documentDataUri : Option String
  nextId : Nat
deriving Repr, DecidableEq

/-- JavaScript truthiness of an optional string value (`null`/absent and the
empty string are falsy). -/
def jsTruthyStr : Option String → Bool
  | some s => !s.isEmpty
  | none => false

/-- Lines 119-125 of `page.tsx`: the flow input starts as
`{ query: newUserMessage.content }` and receives the document fields exactly
when `documentDataUri && selectedFile` is truthy. -/
def buildChatInput (content : String) (docUri : Option String) (file : Option String) :
    LegalChatInput :=
  if jsTruthyStr docUri && file.isSome then
    { query := content, documentDataUri := docUri, documentName := file }
  else
    { query := content }

/-- Outcome of the synchronous part of `handleChatSubmit`: either the guard
rejected the submission (no flow call), or the flow was invoked with the
given input from the given updated state. -/
inductive SubmitStep where
  | rejected : PageState → SubmitStep
  | invoked : PageState → LegalChatInput → SubmitStep
deriving Repr, DecidableEq

/-- `handleChatSubmit`, up to (and including) issuing the flow call: an empty
trimmed query sets the error banner and returns without invoking the flow;
otherwise the error is cleared, the trimmed query is appended to the
transcript as a user message, the text field is cleared, and the flow is
invoked with the input built by `buildChatInput`. -/
def handleChatSubmit (s : PageState) : SubmitStep :=
  if jsTrim s.currentUserQuery = "" then
    .rejected { s with chatError := some "Please enter a question." }
  else
    let userMsg : ChatMessage :=
      { id := s.nextId, role := .user, content := jsTrim s.currentUserQuery }
    let s1 : PageState :=
      { s with chatError := none,
               chatMessages := s.chatMessages ++ [userMsg],
               currentUserQuery := "",
               nextId := s.nextId + 1 }
    .invoked s1 (buildChatInput userMsg.content s.documentDataUri s.selectedFile)

/-- The flow input `handleChatSubmit` would send from state `s`, if any. -/
def submittedInput (s : PageState) : Option LegalChatInput :=
  match handleChatSubmit s with
  | .rejected _ => none
  | .invoked _ i => some i

/-- JavaScript `x || 'Unknown error'` applied to an error-message string. -/
def errOr (e : String) : String := if e.isEmpty then "Unknown error" else e

/-- The continuation inside `startChatTransition` once the `legalChat` call
settles: on success the response is appended as an assistant message; on
failure the error banner is set to a message wrapping the underlying error
and a synthetic assistant message reporting the error is appended. -/
def resolveChat (s : PageState) (outcome : Except String LegalChatOutput) : PageState :=
  match outcome with
  | .ok out =>
    let aiResponse : ChatMessage := { id := s.nextId, role := .assistant, content := out.response }
    { s with chatMessages := s.chatMessages ++ [aiResponse], nextId := s.nextId + 1 }
  | .error e =>
    let content : String := "Sorry, I encountered an error: " ++ errOr e ++ ". Please try again."
    let errorResponse : ChatMessage := { id := s.nextId, role := .assistant, content := content }
    { s with chatError := some ("An error occurred: " ++ errOr e),
             chatMessages := s.chatMessages ++ [errorResponse],
             nextId := s.nextId + 1 }

/-- `clearSelectedFile`: null out the selected file and its data URI (the
toast is presentation only). -/
def clearSelectedFile (s : PageState) : PageState :=
  { s with selectedFile := none, documentDataUri := none }

set_option maxRecDepth 1000000

/-! ### Helper lemmas about the string helpers -/

/-- `String.append` concatenates the underlying character lists. -/
theorem strdata_append (a b : String) : (a ++ b).data = a.data ++ b.data := rfl

/-- A list leads any extension of itself. -/
theorem chListLeads_append (n b : List Char) : chListLeads n (n ++ b) = true := by
  induction n with
  | nil => rfl
  | cons a as ih => simp [chListLeads, ih]

/-- A leading segment occurs. -/
theorem chListOccurs_of_leads (n l : List Char) (h : chListLeads n l = true) :
    chListOccurs n l = true := by
  cases l with
  | nil =>
    cases n with
    | nil => rfl
    | cons a as => simp [chListLeads] at h
  | cons b bs => simp [chListOccurs, h]

/-- A list occurs in any context around it. -/
theorem chListOccurs_mid (a n b : List Char) : chListOccurs n (a ++ (n ++ b)) = true := by
  induction a with
  | nil => exact chListOccurs_of_leads _ _ (chListLeads_append n b)
  | cons x xs ih => simp [chListOccurs, ih]

/-- A string occurs in any concatenation placing it in the middle. -/
theorem strOccurs_mid (a n b : String) : strOccurs n (a ++ n ++ b) = true := by
  unfold strOccurs
  rw [strdata_append, strdata_append, List.append_assoc]
  exact chListOccurs_mid a.data n.data b.data

/-- `submittedInput` depends only on the query text, the data URI and the
selected file. -/
theorem submittedInput_eq (s : PageState) :
    submittedInput s =
      (if jsTrim s.currentUserQuery = "" then none
       else some (buildChatInput (jsTrim s.currentUserQuery) s.documentDataUri s.selectedFile)) := by
  unfold submittedInput handleChatSubmit
  by_cases h : jsTrim s.currentUserQuery = "" <;> simp [h]

/-! ### Claim C1 -/

/-- A raw `legalChat` input whose `documentDataUri` is not a data URI. -/
def badDocRaw : JsonValue :=
  .obj [("query", .str "What does clause 3 of this contract mean?"),
        ("documentDataUri", .str "not-a-data-uri"),
        ("documentName", .str "contract.pdf")]

/-- A provider that answers every prompt with a fixed conforming response. -/
def fixedOracle : List PromptPart → JsonValue :=
  fun _ => .obj [("response", .str "Some answer.")]

/-- C1 counterexample: `"not-a-data-uri"` does not match
`data:<mimetype>;base64,<payload>`, yet the flow accepts the input and makes
one outbound provider call, returning the provider's answer — it does not
fail with an input-validation error before the call. -/
theorem c1_malformed_data_uri_reaches_provider :
    specDataUriFormat "not-a-data-uri" = false ∧
    (legalChat fixedOracle badDocRaw).providerCalls = 1 ∧
    (legalChat fixedOracle badDocRaw).result = .ok { response := "Some answer." } := by
  decide

/-- C1 amended: the input schema checks only that `documentDataUri`, when
present, is a string; every string value — matching the data-URI format or
not — passes input validation, and the flow then makes its one outbound
provider call, never failing with an input-validation error for such inputs. -/
theorem c1_schema_accepts_any_document_string
    (oracle : List PromptPart → JsonValue) (q d : String) :
    parseLegalChatInput (.obj [("query", .str q), ("documentDataUri", .str d)]) =
      .ok { query := q, documentDataUri := some d, documentName := none } ∧
    (legalChat oracle (.obj [("query", .str q), ("documentDataUri", .str d)])).providerCalls = 1 ∧
    isInvalidInput
      (legalChat oracle (.obj [("query", .str q), ("documentDataUri", .str d)])).result = false := by
  refine ⟨rfl, ?_, ?_⟩ <;>
  · unfold legalChat legalChatFlow
    cases hp : parseLegalChatOutput
        (oracle (renderPrompt { query := q, documentDataUri := some d, documentName := none })) <;>
      simp [parseLegalChatInput, getField, asOptString, hp, isInvalidInput]

/-- C1 amended, witnessed at a concrete malformed data URI. -/
theorem c1_schema_accepts_any_document_string_witness :
    parseLegalChatInput (.obj [("query", .str "q"), ("documentDataUri", .str "not-a-data-uri")]) =
      .ok { query := "q", documentDataUri := some "not-a-data-uri", documentName := none } ∧
    (legalChat fixedOracle
      (.obj [("query", .str "q"), ("documentDataUri", .str "not-a-data-uri")])).providerCalls = 1 ∧
    isInvalidInput
      (legalChat fixedOracle
        (.obj [("query", .str "q"), ("documentDataUri", .str "not-a-data-uri")])).result = false :=
  c1_schema_accepts_any_document_string fixedOracle "q" "not-a-data-uri"

/-! ### Claim C2 -/

/-- A provider that ignores the instructions and answers the off-topic query
with a bare answer (no refusal, no disclaimer). -/
def capitalOracle : List PromptPart → JsonValue :=
  fun _ => .obj [("response", .str "Paris is the capital of France.")]

/-- C2 counterexample: for the valid, non-empty, document-free query
`"What is the capital of France?"`, the flow returns the provider's bare
answer unchanged; it neither equals the refusal sentence nor starts with the
disclaimer sentence — the format is instructed, not enforced. -/
theorem c2_bare_answer_returned :
    (legalChat capitalOracle (.obj [("query", .str "What is the capital of France?")])).result =
      .ok { response := "Paris is the capital of France." } ∧
    ("Paris is the capital of France." == refusalSentence) = false ∧
    strLeads disclaimerSentence "Paris is the capital of France." = false := by
  decide

/-- A provider that answers every prompt with the given fixed response. -/
def constOracle (resp : String) : List PromptPart → JsonValue :=
  fun _ => .obj [("response", .str resp)]

/-- C2 amended: for every valid non-empty query with no document, the flow
returns whatever response string the provider produced, verbatim; the
refusal/disclaimer branch structure is requested in the prompt but not
checked, so any provider string — with either prefix or neither — is passed
through. -/
theorem c2_response_returned_verbatim (resp q : String) :
    legalChat (constOracle resp) (.obj [("query", .str q)]) =
      { providerCalls := 1, result := .ok { response := resp } } := rfl

/-- C2 amended, witnessed at a concrete bare provider answer. -/
theorem c2_response_returned_verbatim_witness :
    legalChat (constOracle "A bare answer.") (.obj [("query", .str "Define negligence.")]) =
      { providerCalls := 1, result := .ok { response := "A bare answer." } } :=
  c2_response_returned_verbatim "A bare answer." "Define negligence."

/-! ### Claim C3 -/

/-- C3: the prompt template handed to `ai.definePrompt` contains, character
for character, both fixed contract strings: the off-topic refusal sentence
and the disclaimer sentence. -/
theorem c3_template_contains_contract_strings :
    strOccurs refusalSentence promptTemplate = true ∧
    strOccurs disclaimerSentence promptTemplate = true := by
  decide

/-! ### Claim C4 -/

/-- C4: when the typed query is empty or whitespace-only after trimming,
`handleChatSubmit` rejects the submission with the error banner and never
invokes the flow — whatever document state is attached. -/
theorem c4_blank_query_not_submitted (s : PageState) (h : jsTrim s.currentUserQuery = "") :
    handleChatSubmit s = .rejected { s with chatError := some "Please enter a question." } := by
  unfold handleChatSubmit
  rw [if_pos h]

/-- A page state with a whitespace-only query and a document attached. -/
def blankQueryDocState : PageState :=
  { chatMessages := [], currentUserQuery := "   ", chatError := none,
    selectedFile := some "contract.pdf",
    documentDataUri := some "data:text/plain;base64,SGVsbG8=", nextId := 0 }

/-- C4 witnessed with a document attached: the whitespace query is still
rejected without a flow call. -/
theorem c4_blank_query_not_submitted_witness :
    handleChatSubmit blankQueryDocState =
      .rejected { blankQueryDocState with chatError := some "Please enter a question." } :=
  c4_blank_query_not_submitted blankQueryDocState (by decide)

/-! ### Claim C5 -/

/-- A provider that returns a schema-conforming but empty response text. -/
def emptyRespOracle : List PromptPart → JsonValue :=
  fun _ => .obj [("response", .str "")]

/-- C5 counterexample: the output schema accepts the empty string, so a
provider returning `{response: ""}` makes the flow succeed with an empty
`response` — the result is not always a non-empty string. -/
theorem c5_empty_response_conforms :
    (legalChat emptyRespOracle (.obj [("query", .str "Is this contract valid?")])).result =
      .ok { response := "" } ∧
    (LegalChatOutput.mk "").response.isEmpty = true := by
  decide

/-- C5 amended: on a schema-valid input the flow makes one provider call and
returns exactly the provider's structured output when it conforms to the
output schema (a string `response`, possibly empty), and fails with an
upstream error — with no coercion — when it does not. -/
theorem c5_output_schema_enforced_without_coercion
    (oracle : List PromptPart → JsonValue) (raw : JsonValue) (inp : LegalChatInput)
    (h : parseLegalChatInput raw = .ok inp) :
    (legalChat oracle raw).providerCalls = 1 ∧
    (legalChat oracle raw).result =
      (match parseLegalChatOutput (oracle (renderPrompt inp)) with
       | .ok out => .ok out
       | .error e => .error (.upstream e)) := by
  unfold legalChat legalChatFlow
  rw [h]
  cases hp : parseLegalChatOutput (oracle (renderPrompt inp)) <;> simp [hp]

/-- A provider whose structured output lacks the required `response` field. -/
def missingFieldOracle : List PromptPart → JsonValue :=
  fun _ => .obj [("text", .str "wrong field name")]

/-- C5 amended, witnessed with a provider omitting the `response` field: the
flow fails with an upstream error instead of coercing the output. -/
theorem c5_output_schema_enforced_without_coercion_witness :
    (legalChat missingFieldOracle (.obj [("query", .str "q")])).providerCalls = 1 ∧
    (legalChat missingFieldOracle (.obj [("query", .str "q")])).result =
      .error (.upstream "response: required") := by
  have h := c5_output_schema_enforced_without_coercion missingFieldOracle
    (.obj [("query", .str "q")]) { query := "q" } (by decide)
  exact ⟨h.1, h.2.trans (by decide)⟩

/-! ### Claim C6 -/

/-- A `legalChat` input whose `documentDataUri` is present but empty. -/
def emptyUriInput : LegalChatInput :=
  { query := "Is my lease enforceable?", documentDataUri := some "",
    documentName := some "lease.pdf" }

/-- C6 counterexample: with `documentDataUri` present but equal to the empty
string, the handlebars conditional is falsy, so the rendered prompt carries
no document media part — it renders exactly as the document-free prompt. The
"if and only if present" reading therefore fails. -/
theorem c6_empty_uri_present_without_section :
    emptyUriInput.documentDataUri.isSome = true ∧
    hasMediaPart (renderPrompt emptyUriInput) = false ∧
    renderPrompt emptyUriInput = renderPrompt { query := "Is my lease enforceable?" } := by
  decide

/-- C6 amended: the rendered prompt carries the document media part exactly
when `documentDataUri` is handlebars-truthy (present and non-empty); when it
is absent or empty the prompt is precisely the instruction text followed by
the query; when truthy the prompt is text, the document media content, and
closing text, with the declared document name occurring in the text before
the media part. -/
theorem c6_document_section_iff_truthy (inp : LegalChatInput) :
    (hasMediaPart (renderPrompt inp) = hbTruthy inp.documentDataUri) ∧
    (hbTruthy inp.documentDataUri = false →
      renderPrompt inp = [.text (promptInstructions ++ finalQuestion ++ inp.query)]) ∧
    (hbTruthy inp.documentDataUri = true →
      ∃ pre post,
        renderPrompt inp = [.text pre, .media (hbVar inp.documentDataUri), .text post] ∧
        strOccurs (hbVar inp.documentName) pre = true) := by
  unfold renderPrompt
  cases hb : hbTruthy inp.documentDataUri with
  | false => simp [hb, hasMediaPart]
  | true =>
    simp only [hb, if_pos]
    refine ⟨by simp [hasMediaPart], by simp, fun _ => ?_⟩
    exact ⟨promptInstructions ++ docNamePre ++ hbVar inp.documentName ++ docNamePost,
      "\n" ++ finalQuestion ++ inp.query, rfl,
      by
        have h := strOccurs_mid (promptInstructions ++ docNamePre) (hbVar inp.documentName)
          docNamePost
        simpa using h⟩

/-- A `legalChat` input with a non-empty (truthy) document data URI. -/
def truthyUriInput : LegalChatInput :=
  { query := "q", documentDataUri := some "data:text/plain;base64,SGVsbG8=",
    documentName := some "a.pdf" }

/-- C6 amended, witnessed on both branches: a document-free input renders to
instructions plus query, and an input with a non-empty data URI renders with
a media part. -/
theorem c6_document_section_iff_truthy_witness :
    renderPrompt { query := "q" } = [.text (promptInstructions ++ finalQuestion ++ "q")] ∧
    hasMediaPart (renderPrompt truthyUriInput) = true :=
  ⟨(c6_document_section_iff_truthy { query := "q" }).2.1 rfl,
   ((c6_document_section_iff_truthy truthyUriInput).1).trans (by decide)⟩

/-! ### Claim C7 -/

/-- C7: two page states agreeing on the typed query, the document data URI
and the selected file submit identical flow inputs, whatever their
transcripts, error banners or id counters hold — the transcript is never part
of the flow input. -/
theorem c7_flow_input_independent_of_transcript (s t : PageState)
    (hq : s.currentUserQuery = t.currentUserQuery)
    (hd : s.documentDataUri = t.documentDataUri)
    (hf : s.selectedFile = t.selectedFile) :
    submittedInput s = submittedInput t := by
  rw [submittedInput_eq, submittedInput_eq, hq, hd, hf]

/-- A first-turn state: empty transcript. -/
def transcriptStateA : PageState :=
  { chatMessages := [], currentUserQuery := "Can I break my lease?", chatError := none,
    selectedFile := some "lease.pdf",
    documentDataUri := some "data:text/plain;base64,SGVsbG8=", nextId := 0 }

/-- A later-turn state: same query and document, but a running transcript,
a stale error banner and an advanced id counter. -/
def transcriptStateB : PageState :=
  { chatMessages := [⟨0, .user, "earlier question"⟩, ⟨1, .assistant, "earlier answer"⟩],
    currentUserQuery := "Can I break my lease?", chatError := some "old error",
    selectedFile := some "lease.pdf",
    documentDataUri := some "data:text/plain;base64,SGVsbG8=", nextId := 2 }

/-- C7 witnessed on two states whose transcripts differ. -/
theorem c7_flow_input_independent_of_transcript_witness :
    submittedInput transcriptStateA = submittedInput transcriptStateB :=
  c7_flow_input_independent_of_transcript transcriptStateA transcriptStateB rfl rfl rfl

/-! ### Claim C8 -/

/-- The synthetic assistant message the catch block appends on failure. -/
def chatFailureMessage (idv : Nat) (e : String) : ChatMessage :=
  { id := idv, role := .assistant,
    content := "Sorry, I encountered an error: " ++ errOr e ++ ". Please try again." }

/-- C8: when the `legalChat` call fails, the handler sets the error banner to
a message wrapping the underlying error and appends a synthetic assistant
message reporting the error (not a model answer); and for every outcome the
transcript is extended append-only, the existing messages untouched. -/
theorem c8_failure_appends_synthetic_error_message (st : PageState) (e : String) :
    (resolveChat st (.error e)).chatError = some ("An error occurred: " ++ errOr e) ∧
    (resolveChat st (.error e)).chatMessages =
      st.chatMessages ++ [chatFailureMessage st.nextId e] ∧
    (chatFailureMessage st.nextId e).role = .assistant ∧
    (∀ outcome, ∃ tail, (resolveChat st outcome).chatMessages = st.chatMessages ++ tail) := by
  refine ⟨rfl, rfl, rfl, ?_⟩
  intro outcome
  cases outcome with
  | ok out => exact ⟨_, rfl⟩
  | error e2 => exact ⟨_, rfl⟩

/-- A state holding one user message awaiting its answer. -/
def errorDemoState : PageState :=
  { chatMessages := [⟨0, .user, "Can my landlord evict me?"⟩], currentUserQuery := "",
    chatError := none, selectedFile := none, documentDataUri := none, nextId := 1 }

/-- C8 witnessed at a concrete failing call. -/
theorem c8_failure_appends_synthetic_error_message_witness :
    (resolveChat errorDemoState (.error "Network failure")).chatError =
      some "An error occurred: Network failure" :=
  (c8_failure_appends_synthetic_error_message errorDemoState "Network failure").1.trans (by decide)

/-! ### Claim C9 -/

/-- C9: the constructed flow input carries the document fields only when the
data URI is present (and truthy) and a file is selected — otherwise both
fields are absent; and any submission made after `clearSelectedFile` carries
no document fields. -/
theorem c9_document_fields_require_uri_and_file :
    (∀ (c : String) (d f : Option String),
      ((buildChatInput c d f).documentDataUri = none ∧
        (buildChatInput c d f).documentName = none) ∨
      (∃ u n, d = some u ∧ u.isEmpty = false ∧ f = some n ∧
        buildChatInput c d f =
          { query := c, documentDataUri := some u, documentName := some n })) ∧
    (∀ (s s1 : PageState) (i : LegalChatInput),
      handleChatSubmit (clearSelectedFile s) = .invoked s1 i →
      i.documentDataUri = none ∧ i.documentName = none) := by
  constructor
  · intro c d f
    cases d with
    | none => left; simp [buildChatInput, jsTruthyStr]
    | some u =>
      cases f with
      | none => left; simp [buildChatInput, jsTruthyStr]
      | some n =>
        cases hu : u.isEmpty with
        | true => left; simp [buildChatInput, jsTruthyStr, hu]
        | false =>
          right
          exact ⟨u, n, rfl, hu, rfl, by simp [buildChatInput, jsTruthyStr, hu]⟩
  · intro s s1 i h
    unfold handleChatSubmit clearSelectedFile at h
    by_cases ht : jsTrim s.currentUserQuery = ""
    · simp [ht] at h
    · simp only [ht, if_neg, if_false] at h
      simp [ht] at h
      obtain ⟨-, hi⟩ := h
      rw [← hi]
      simp [buildChatInput, jsTruthyStr]

/-- A state with a document attached, before the document is cleared. -/
def clearDemoState : PageState :=
  { chatMessages := [], currentUserQuery := " q2 ", chatError := none,
    selectedFile := some "a.pdf",
    documentDataUri := some "data:text/plain;base64,SGVsbG8=", nextId := 3 }

/-- The state `handleChatSubmit` produces after the document was cleared. -/
def clearDemoAfter : PageState :=
  { chatMessages := [⟨3, .user, "q2"⟩], currentUserQuery := "", chatError := none,
    selectedFile := none, documentDataUri := none, nextId := 4 }

/-- C9 witnessed: after `clearSelectedFile`, the concrete submission carries
the query only. -/
theorem c9_document_fields_require_uri_and_file_witness :
    ({ query := "q2" } : LegalChatInput).documentDataUri = none ∧
    ({ query := "q2" } : LegalChatInput).documentName = none :=
  (c9_document_fields_require_uri_and_file).2 clearDemoState clearDemoAfter
    { query := "q2" } (by decide)

/-! ### Claim C10 -/

/-- The user message `handleChatSubmit` creates from the current state. -/
def sentUserMessage (s : PageState) : ChatMessage :=
  { id := s.nextId, role := .user, content := jsTrim s.currentUserQuery }

/-- The state `handleChatSubmit` leaves behind when it invokes the flow. -/
def afterSubmitState (s : PageState) : PageState :=
  { s with chatError := none,
           chatMessages := s.chatMessages ++ [sentUserMessage s],
           currentUserQuery := "",
           nextId := s.nextId + 1 }

/-- C10: for a non-whitespace typed query, the flow is invoked with the
trimmed query, the user message (whose content is that same trimmed text) is
already appended to the transcript and the input field already cleared when
the flow is invoked, and even when the flow then fails the transcript still
extends the user message, never dropping it. -/
theorem c10_user_message_trimmed_and_kept (s : PageState)
    (h : jsTrim s.currentUserQuery ≠ "") :
    ∃ s1 i,
      handleChatSubmit s = .invoked s1 i ∧
      i.query = jsTrim s.currentUserQuery ∧
      s1.chatMessages = s.chatMessages ++ [sentUserMessage s] ∧
      s1.currentUserQuery = "" ∧
      ∀ e, ∃ tail,
        (resolveChat s1 (.error e)).chatMessages =
          s.chatMessages ++ (sentUserMessage s :: tail) := by
  refine ⟨afterSubmitState s,
    buildChatInput (jsTrim s.currentUserQuery) s.documentDataUri s.selectedFile,
    ?_, ?_, rfl, rfl, ?_⟩
  · unfold handleChatSubmit
    rw [if_neg h]
    rfl
  · unfold buildChatInput
    split <;> rfl
  · intro e
    refine ⟨[chatFailureMessage (s.nextId + 1) e], ?_⟩
    simp [resolveChat, afterSubmitState, sentUserMessage, chatFailureMessage]

/-- A state with an existing transcript and an untrimmed typed query. -/
def c10DemoState : PageState :=
  { chatMessages := [⟨0, .assistant, "Hello"⟩],
    currentUserQuery := "  Can my landlord evict me?  ", chatError := none,
    selectedFile := none, documentDataUri := none, nextId := 1 }

/-- C10 witnessed at a concrete untrimmed query. -/
theorem c10_user_message_trimmed_and_kept_witness :
    ∃ s1 i,
      handleChatSubmit c10DemoState = .invoked s1 i ∧
      i.query = jsTrim c10DemoState.currentUserQuery ∧
      s1.chatMessages = c10DemoState.chatMessages ++ [sentUserMessage c10DemoState] ∧
      s1.currentUserQuery = "" ∧
      ∀ e, ∃ tail,
        (resolveChat s1 (.error e)).chatMessages =
          c10DemoState.chatMessages ++ (sentUserMessage c10DemoState :: tail) :=
  c10_user_message_trimmed_and_kept c10DemoState (by decide)
